import Mathlib

/-!
Shallow embedding of `contrib/python/visioncpp/backend.py`: a content-addressed
build cache wrapped around a three-stage external-toolchain pipeline
(device-stub compile, host compile, link), plus a loader/runner.

External effects (process spawns, the filesystem, stdout/stderr, the logging
stream) are modelled by explicit state passing over a `World` record; the
behavior of external processes is an oracle parameter (`Toolchain`), indexed by
the world's spawn counter so distinct invocations may behave differently.
Python exceptions are modelled by `Except Err`; `sys.exit` is modelled as the
`Err.sysExit` outcome, which (like Python's `SystemExit`, a `BaseException`)
is not caught by an `except Exception` handler.
-/

namespace VisionCpp

/-- `os.path.join dir name` for the relative component names used in the
source (none of them absolute, so the join is plain concatenation). -/
def pathJoin (d n : String) : String := d ++ "/" ++ n

/-- Helper for `pySplit`: walk the characters, accumulating the current
token in reverse. -/
def pySplitAux : List Char → List Char → List String
  | [], acc => if acc.isEmpty then [] else [String.mk acc.reverse]
  | c :: cs, acc =>
    if c.isWhitespace then
      if acc.isEmpty then pySplitAux cs []
      else String.mk acc.reverse :: pySplitAux cs []
    else pySplitAux cs (c :: acc)

/-- Python `str.split()` with no separator: split on whitespace runs,
dropping empty fragments. -/
def pySplit (s : String) : List String := pySplitAux s.data []

/-- `labm8.fs.basename`: the component after the last slash. -/
def pyBasename (s : String) : String :=
  String.mk ((s.data.reverse.takeWhile (fun c => c != '/')).reverse)

/-- Captured outcome of one external process: exit code, captured stdout and
stderr, and the set of files the process created on disk. -/
structure ToolResult where
  returncode : Int
  stdout : String
  stderr : String
  created : List String
deriving DecidableEq, Repr

/-- A recorded process invocation: argument vector and the input supplied on
its stdin (if any). -/
structure Call where
  args : List String
  stdin : Option String
deriving DecidableEq, Repr

/-- Oracle giving the behavior of external processes: the world's spawn
counter, the argument vector, and the supplied stdin determine the outcome. -/
def Toolchain : Type := Nat → List String → Option String → ToolResult

/-- The observable state threaded through the embedding: the filesystem (the
set of existing paths), the informational logging stream (`logging.info`), the
diagnostic stream (`sys.stderr` prints), the interactive progress output, the
count and record of spawned processes, the record of `compute++` invocations,
and the runner's observable effects (loaded binaries, displayed images,
foreign calls). -/
structure World where
  fs : List String
  infoLog : List String
  stderrLog : List String
  progressLog : List String
  spawnCount : Nat
  calls : List Call
  ccCalls : List Call
  loaded : List String
  shown : List String
  ffiCalls : List String
deriving DecidableEq, Repr

/-- Python exception outcomes arising in the embedded code. `sysExit` is
`sys.exit(code)` raising `SystemExit`. -/
inductive Err where
  | sysExit (code : Int)
  | assertionError
  | visionCppException (msg : String)
  | typeError
  | valueError
  | keyError (key : String)
  | osError
deriving DecidableEq, Repr

/-- Whether `except Exception` catches the outcome: every Python `Exception`
subclass is caught; `SystemExit` derives from `BaseException` and is not. -/
def Err.catchableByException : Err → Bool
  | .sysExit _ => false
  | _ => true

/-- Environment-derived configuration: `vp.computecpp_prefix` (the toolchain
install prefix, modelled from the spec: the package `__init__` declaring it is
not under the provided sources; per the spec it is a fixed install prefix),
the bundled header directory (`resource_filename(__name__, "lib/include")`),
and the flags reported by `pkgconfig` for opencv. -/
structure Config where
  installDir : String
  includeDir : String
  opencvCflags : List String
  opencvLibs : List String
deriving DecidableEq, Repr

/-- `subprocess.Popen` + `communicate`: spawn one external process, record
the invocation, bump the spawn counter, and apply the files it creates. -/
def spawn (tc : Toolchain) (args : List String) (stdin : Option String)
    (w : World) : World × ToolResult :=
  let r := tc w.spawnCount args stdin
  ({ w with
      spawnCount := w.spawnCount + 1
      calls := w.calls ++ [⟨args, stdin⟩]
      fs := w.fs ++ r.created }, r)

/-- `get_host_cflags`: fixed host compiler flags plus the opencv cflags. -/
def get_host_cflags (cfg : Config) : List String :=
  ["-x", "c++",
   "-std=c++11",
   "-D_GLIBCXX_USE_CXX11_ABI=0",
   "-I" ++ pathJoin cfg.installDir "include",
   "-I" ++ cfg.includeDir] ++ cfg.opencvCflags

/-- `get_device_cflags`: run `computecpp_info --dump-device-compiler-flags`
and return the whitespace-split tokens of its captured stdout. The exit
status of the process is never inspected. -/
def get_device_cflags (cfg : Config) (tc : Toolchain) (w : World) :
    World × List String :=
  let p := spawn tc
    [pathJoin (pathJoin cfg.installDir "bin") "computecpp_info",
     "--dump-device-compiler-flags"] none w
  (p.1, pySplit p.2.stdout)

/-- `get_ldflags`: opencv libs, the toolchain library directory, and the two
required libraries. -/
def get_ldflags (cfg : Config) : List String :=
  cfg.opencvLibs ++
  ["-L" ++ pathJoin cfg.installDir "lib"] ++
  ["-lComputeCpp", "-lpthread"]

/-- `invoke_computecpp`: log the command line at informational level, spawn
`compute++` with the given arguments, and on a non-zero exit dump the input
(if any), the captured stdout and the captured stderr to the diagnostic
stream, then `sys.exit` with the compiler's own exit code. -/
def invoke_computecpp (cfg : Config) (tc : Toolchain) (args : List String)
    (stdin : Option String) (w : World) : World × Except Err Unit :=
  let cmd := pathJoin (pathJoin cfg.installDir "bin") "compute++" :: args
  let w1 := { w with infoLog := w.infoLog ++ [String.intercalate " " cmd] }
  let p := spawn tc cmd stdin w1
  let w2 := { p.1 with ccCalls := p.1.ccCalls ++ [⟨cmd, stdin⟩] }
  if p.2.returncode ≠ 0 then
    let dump :=
      ["================", "ComputeCpp Error", "================", ""] ++
      (match stdin with
       | some s => ["=== compute++ input:", "", s, ""]
       | none => []) ++
      ["=== compute++ output:", "", p.2.stdout, ""] ++
      ["=== compute++ error output:", "", p.2.stderr, ""] ++
      ["=========================", "FATAL ERROR. TERMINATING."]
    ({ w2 with stderrLog := w2.stderrLog ++ dump },
     .error (.sysExit p.2.returncode))
  else (w2, .ok ())

/-- `host_compile`: assert `dir/host.o` absent, compile the source (supplied
on stdin) with the stub force-included, assert the output now exists, return
its path. Python's `assert` raises `AssertionError`, an `Exception`. -/
def host_compile (cfg : Config) (tc : Toolchain) (code : String)
    (stub : String) (dir : String) (w : World) : World × Except Err String :=
  let dest := pathJoin dir "host.o"
  if dest ∈ w.fs then (w, .error .assertionError)
  else
    let args := get_host_cflags cfg ++
      ["-c", "-", "-fPIC", "-include", stub, "-o", dest]
    let p := invoke_computecpp cfg tc args (some code) w
    match p.2 with
    | .error e => (p.1, .error e)
    | .ok _ =>
      if dest ∈ p.1.fs then (p.1, .ok dest) else (p.1, .error .assertionError)

/-- `stub_file`: assert `dir/stub.sycl` absent, gather host and device flags
(the latter spawning `computecpp_info`), compile the source from stdin to the
integration stub, assert it now exists, return its path. -/
def stub_file (cfg : Config) (tc : Toolchain) (code : String) (dir : String)
    (w : World) : World × Except Err String :=
  let dest := pathJoin dir "stub.sycl"
  if dest ∈ w.fs then (w, .error .assertionError)
  else
    let q := get_device_cflags cfg tc w
    let args := get_host_cflags cfg ++ q.2 ++ ["-c", "-", "-o", dest]
    let p := invoke_computecpp cfg tc args (some code) q.1
    match p.2 with
    | .error e => (p.1, .error e)
    | .ok _ =>
      if dest ∈ p.1.fs then (p.1, .ok dest) else (p.1, .error .assertionError)

/-- `link`: assert `dir/visioncpp_native` absent, link the host object into a
shared library, assert it now exists, return its path. -/
def link (cfg : Config) (tc : Toolchain) (host : String) (dir : String)
    (w : World) : World × Except Err String :=
  let dest := pathJoin dir "visioncpp_native"
  if dest ∈ w.fs then (w, .error .assertionError)
  else
    let args :=
      ["-std=c++11",
       "-shared",
       "-Wl,-soname,visioncpp_native.so",
       "-Wl,-rpath=" ++ pathJoin cfg.installDir "lib",
       host,
       "-o", dest] ++ get_ldflags cfg
    let p := invoke_computecpp cfg tc args none w
    match p.2 with
    | .error e => (p.1, .error e)
    | .ok _ =>
      if dest ∈ p.1.fs then (p.1, .ok dest) else (p.1, .error .assertionError)

/-- The message of the configuration error raised for a missing toolchain
file. -/
def missingMsg (p : String) : String :=
  "file \x27" ++ p ++ "\x27 not found. Is ComputeCpp installed?"

/-- `check_for_computecpp`: verify the three required toolchain files exist,
raising `VisionCppException` naming the first missing one. Reads the
filesystem only; spawns nothing. -/
def check_for_computecpp (cfg : Config) (w : World) : Except Err Unit :=
  let p1 := pathJoin (pathJoin cfg.installDir "bin") "computecpp_info"
  let p2 := pathJoin (pathJoin cfg.installDir "bin") "compute++"
  let p3 := pathJoin (pathJoin cfg.installDir "lib") "libComputeCpp.so"
  if p1 ∉ w.fs then .error (.visionCppException (missingMsg p1))
  else if p2 ∉ w.fs then .error (.visionCppException (missingMsg p2))
  else if p3 ∉ w.fs then .error (.visionCppException (missingMsg p3))
  else .ok ()

/-- The fixed cache root, `fs.path("~/.cache/visioncpp")`. -/
def cachePath : String := "~/.cache/visioncpp"

/-- Modelled from the spec: the fingerprint applied by the cache backend
(`labm8.cache.FSCache`, an external library not under the provided sources).
Per the spec, the fingerprint is the exact source text — "Identity = its
exact byte content (used as the cache key)", "content-addressed; no
normalization" — so it is modelled as the identity on strings. -/
def fingerprint (s : String) : String := s

/-- The on-disk location of the cache entry for a key: the cache root joined
with the key's fingerprint. -/
def keypath (key : String) : String := pathJoin cachePath (fingerprint key)

/-- Modelled from the spec: `FSCache.get` — `lookup(sourceFingerprint) ->
optional<artifactPath>`; the entry for a key is the file stored at the key's
cache location, present only if that file exists. -/
def cache_get (w : World) (key : String) : Option String :=
  if keypath key ∈ w.fs then some (keypath key) else none

/-- Modelled from the spec: `FSCache.__getitem__` — the cached artifact path
when the entry exists, `KeyError` otherwise. -/
def cache_getitem (w : World) (key : String) : Except Err String :=
  match cache_get w key with
  | some p => .ok p
  | none => .error (.keyError (fingerprint key))

/-- Modelled from the spec: `FSCache.__setitem__` — `store(sourceFingerprint,
artifactPath)`; the built artifact is copied out of the workspace into the
cache location for the key before workspace teardown. -/
def cache_set (key : String) (_value : String) (w : World) : World :=
  { w with fs := w.fs ++ [keypath key] }

/-- Python truthiness of `bincache.get(code)`: `None` and the empty string
are falsy. -/
def truthyOpt : Option String → Bool
  | some s => s != ""
  | none => false

/-- Whether a path is the directory `dir` itself or lies beneath it;
`shutil.rmtree dir` removes exactly these paths. -/
def underDir (dir p : String) : Bool :=
  p == dir || (dir ++ "/").data.isPrefixOf p.data

/-- `shutil.rmtree`: recursively delete a directory. -/
def rmtree (dir : String) (w : World) : World :=
  { w with fs := w.fs.filter (fun p => !(underDir dir p)) }

/-- The fixed boilerplate preamble (an `extern "C"` elementwise-add
function) prefixed to every submitted source before fingerprinting and
compilation. -/
def preamble : String :=
  "\nextern \"C\" \x7b\nvoid test_add(float *a, float *b, float *c, long n) \x7b\n  while (n--) \x7b\n    *c++ = *a++ + *b++;\n  \x7d\n\x7d\n\x7d\n    "

/-- The cache key `compile_cpp_code` uses for a submitted source text: the
fingerprint of the preamble-prefixed text. -/
def cache_key (code0 : String) : String := fingerprint (preamble ++ code0)

/-- The failure handler wrapping the build stages: `except Exception` catches
Python `Exception`s (tearing the workspace down and re-raising), while
`SystemExit` from `sys.exit` propagates without the handler running. -/
def handleBuildFailure (tmpdir : String) (w : World) (e : Err) :
    World × Except Err String :=
  if e.catchableByException then (rmtree tmpdir w, .error e)
  else (w, .error e)

/-- The body of the `try` block of `compile_cpp_code` (run inside the fresh
workspace): the three build stages with their interleaved progress messages,
followed by the cache store of the linked binary. -/
def build_in_workspace (cfg : Config) (tc : Toolchain) (code tmpdir : String)
    (w : World) : World × Except Err String :=
  let w2 := { w with progressLog :=
    w.progressLog ++ ["0: compiling device code ..."] }
  let p1 := stub_file cfg tc code tmpdir w2
  match p1.2 with
  | .error e => (p1.1, .error e)
  | .ok stub =>
    let w3 := { p1.1 with progressLog :=
      p1.1.progressLog ++ ["1: compiling host code ..."] }
    let p2 := host_compile cfg tc code stub tmpdir w3
    match p2.2 with
    | .error e => (p2.1, .error e)
    | .ok host =>
      let w4 := { p2.1 with progressLog :=
        p2.1.progressLog ++ ["2: linking executable ..."] }
      let p3 := link cfg tc host tmpdir w4
      match p3.2 with
      | .error e => (p3.1, .error e)
      | .ok tmpbin =>
        let w5 := { p3.1 with progressLog := p3.1.progressLog ++ [""] }
        (cache_set code tmpbin w5, .ok tmpbin)

/-- `compile_cpp_code`: prefix the preamble, return the cached artifact path
on a cache hit; otherwise check the toolchain is present, create a scratch
workspace (`mkdtemp`, whose fresh name is the `tmpdir` parameter), run the
three stages with progress messages, store the artifact in the cache, tear
the workspace down, and return the cache entry's path. A failure raised in
the `try` block goes through `handleBuildFailure`. -/
def compile_cpp_code (cfg : Config) (tc : Toolchain) (tmpdir : String)
    (code0 : String) (w : World) : World × Except Err String :=
  let code := preamble ++ code0
  if truthyOpt (cache_get w code) then
    let w1 := { w with infoLog := w.infoLog ++
      ["Found cached binary " ++ pyBasename ((cache_get w code).getD "")] }
    (w1, cache_getitem w1 code)
  else
    match check_for_computecpp cfg w with
    | .error e => (w, .error e)
    | .ok _ =>
      let w1 := { w with fs := w.fs ++ [tmpdir] }
      let p := build_in_workspace cfg tc code tmpdir w1
      match p.2 with
      | .error e => handleBuildFailure tmpdir p.1 e
      | .ok _ =>
        let w7 := rmtree tmpdir p.1
        (w7, cache_getitem w7 code)

/-- Modelled from the spec: a pipeline stage value passed to the runner.
`visioncpp.Operation` and its subclass `visioncpp.Image` (which carries an
input image path) are declared in the package `__init__`, not under the
provided sources; `other` stands for any value that is not a
`visioncpp.Operation` instance. -/
inductive Stage where
  | operation
  | image (input : String)
  | other
deriving DecidableEq, Repr

/-- `isinstance(stage, vp.Operation)`. -/
def Stage.isOperation : Stage → Bool
  | .operation => true
  | .image _ => true
  | .other => false

/-- The input path of an `Image` stage, if the stage is one. -/
def Stage.imagePath : Stage → Option String
  | .image i => some i
  | _ => none

/-- A Python value passed as the runner's `binary` argument: a string or
some non-string value (`labm8.types.is_str` distinguishes them). -/
inductive PyArg where
  | str (s : String)
  | notStr
deriving DecidableEq, Repr

/-- `run`: validate the pipeline stages and the binary path, then display
the pipeline's input images, load the binary, and invoke its entry points.
Image display and the foreign calls are recorded as events; whether the
binary is loadable on the platform is the oracle `loadable`. -/
def run (loadable : String → Bool) (pipeline : List Stage) (binary : PyArg)
    (w : World) : World × Except Err Unit :=
  if ¬ (pipeline.all Stage.isOperation) then (w, .error .typeError)
  else match binary with
  | .notStr => (w, .error .typeError)
  | .str b =>
    if b = "" ∨ b ∉ w.fs then (w, .error .valueError)
    else
      let impaths := pipeline.filterMap Stage.imagePath
      let w1 := { w with shown := w.shown ++ impaths }
      if ¬ loadable b then (w1, .error .osError)
      else
        let w2 := { w1 with loaded := w1.loaded ++ [b] }
        let w3 := { w2 with ffiCalls :=
          w2.ffiCalls ++ ["test_add", "native_expression_tree"] }
        (w3, .ok ())

/-- The output path requested by an argument vector: the argument following
the last `-o` flag that is followed by one. Used to state hypotheses about a
toolchain that "produces the requested output files". -/
def requestedOutput : List String → Option String
  | [] => none
  | a :: rest =>
    if a = "-o" then
      match rest with
      | [] => none
      | x :: _ =>
        match requestedOutput rest with
        | some y => some y
        | none => some x
    else requestedOutput rest

/-! Concrete instantiations used by witnesses and counterexamples. -/

/-- A concrete configuration: install prefix `/ccp`, bundled headers at
`/vp/lib/include`, no opencv flags. -/
def cfg0 : Config := ⟨"/ccp", "/vp/lib/include", [], []⟩

/-- A fake toolchain that always succeeds and creates exactly the output
file requested by the `-o` flag of its argument vector. -/
def tcOK : Toolchain := fun _ args _ =>
  ⟨0, "", "", (requestedOutput args).toList⟩

/-- A fake toolchain whose every invocation exits with code 1, creating no
files. -/
def tcFail : Toolchain := fun _ _ _ => ⟨1, "out", "err", []⟩

/-- A fake toolchain that always exits 0 but never creates any file. -/
def tcEmpty : Toolchain := fun _ _ _ => ⟨0, "", "", []⟩

/-- An initial world: the three required toolchain files exist, the cache is
empty, nothing has been spawned or logged. -/
def w0 : World :=
  ⟨["/ccp/bin/computecpp_info", "/ccp/bin/compute++",
    "/ccp/lib/libComputeCpp.so"],
   [], [], [], 0, [], [], [], [], []⟩

/-- A concrete fresh scratch directory name, as `mkdtemp` would produce. -/
def tmp0 : String := "/tmp/visioncpp-0"

/-- A concrete world in which all three stage outputs already exist in the
directory `/d`. -/
def wD : World :=
  ⟨["/d/stub.sycl", "/d/host.o", "/d/visioncpp_native"],
   [], [], [], 0, [], [], [], [], []⟩

/-! Abbreviations naming the argument vectors the pipeline passes to the
external processes (used to state the evaluation lemmas below). -/

def infoArgsV (cfg : Config) : List String :=
  [pathJoin (pathJoin cfg.installDir "bin") "computecpp_info",
   "--dump-device-compiler-flags"]

def stubCmdV (cfg : Config) (tc : Toolchain) (dir : String) (n : Nat) :
    List String :=
  pathJoin (pathJoin cfg.installDir "bin") "compute++" ::
    (get_host_cflags cfg ++
     (pySplit (tc n (infoArgsV cfg) none).stdout ++
      ["-c", "-", "-o", pathJoin dir "stub.sycl"]))

def hostCmdV (cfg : Config) (stub dir : String) : List String :=
  pathJoin (pathJoin cfg.installDir "bin") "compute++" ::
    (get_host_cflags cfg ++
     ["-c", "-", "-fPIC", "-include", stub, "-o", pathJoin dir "host.o"])

def linkCmdV (cfg : Config) (host dir : String) : List String :=
  pathJoin (pathJoin cfg.installDir "bin") "compute++" ::
    (["-std=c++11", "-shared", "-Wl,-soname,visioncpp_native.so",
      "-Wl,-rpath=" ++ pathJoin cfg.installDir "lib", host, "-o",
      pathJoin dir "visioncpp_native"] ++ get_ldflags cfg)

/-! Helper lemmas about strings, paths and `requestedOutput`. -/

lemma str_ne_of_length_ne {a b : String} (h : a.length ≠ b.length) :
    a ≠ b := fun he => h (he ▸ rfl)

lemma pathJoin_length (d n : String) :
    (pathJoin d n).length = d.length + 1 + n.length := by
  have h1 : ("/" : String).length = 1 := rfl
  rw [show pathJoin d n = (d ++ "/") ++ n from rfl,
    String.length_append, String.length_append, h1]

lemma pathJoin_ne_dir (d n : String) : pathJoin d n ≠ d := by
  apply str_ne_of_length_ne
  rw [pathJoin_length]
  omega

lemma pathJoin_ne_empty (d n : String) : pathJoin d n ≠ "" := by
  apply str_ne_of_length_ne
  rw [pathJoin_length]
  simp

lemma pathJoin_ne_of_length_ne (d : String) {n n' : String}
    (h : n.length ≠ n'.length) : pathJoin d n ≠ pathJoin d n' := by
  apply str_ne_of_length_ne
  rw [pathJoin_length, pathJoin_length]
  omega

lemma pathJoin_ne_o (d n : String) (h : 2 ≤ n.length) :
    pathJoin d n ≠ "-o" := by
  apply str_ne_of_length_ne
  rw [pathJoin_length, show ("-o" : String).length = 2 from rfl]
  omega

lemma requestedOutput_cons_ne (a : String) (l : List String) (h : a ≠ "-o") :
    requestedOutput (a :: l) = requestedOutput l := by
  simp [requestedOutput, h]

lemma requestedOutput_single (a : String) : requestedOutput [a] = none := by
  by_cases h : a = "-o" <;> simp [requestedOutput, h]

lemma requestedOutput_eq_none {l : List String} (h : "-o" ∉ l) :
    requestedOutput l = none := by
  induction l with
  | nil => rfl
  | cons a t ih =>
    have ha : a ≠ "-o" := fun he => h (he ▸ List.mem_cons_self a t)
    rw [requestedOutput_cons_ne a t ha]
    exact ih (fun ht => h (List.mem_cons_of_mem a ht))

lemma requestedOutput_o_cons_some {m : List String} {x : String}
    (h : requestedOutput m = some x) :
    requestedOutput ("-o" :: m) = some x := by
  cases m with
  | nil => simp [requestedOutput] at h
  | cons b bs =>
    conv_lhs => rw [requestedOutput.eq_def]
    simp only [reduceIte]
    rw [h]

lemma requestedOutput_append_some {l₂ : List String} (l₁ : List String)
    {x : String} (h : requestedOutput l₂ = some x) :
    requestedOutput (l₁ ++ l₂) = some x := by
  induction l₁ with
  | nil => simpa using h
  | cons a t ih =>
    by_cases ha : a = "-o"
    · subst ha
      exact requestedOutput_o_cons_some ih
    · rw [List.cons_append, requestedOutput_cons_ne a _ ha]
      exact ih

lemma requestedOutput_o_tail {dest : String} {l : List String}
    (h1 : dest ≠ "-o") (h2 : "-o" ∉ l) :
    requestedOutput ("-o" :: dest :: l) = some dest := by
  have hn : requestedOutput l = none := requestedOutput_eq_none h2
  simp [requestedOutput, h1, hn]

/-! Helper lemmas about `underDir` and `rmtree`. -/

lemma underDir_self (d : String) : underDir d d = true := by
  simp [underDir]

lemma underDir_pathJoin (d n : String) : underDir d (pathJoin d n) = true := by
  have : pathJoin d n = (d ++ "/") ++ n := by
    simp [pathJoin, String.append_assoc]
  simp only [underDir, this, Bool.or_eq_true]
  right
  rw [String.data_append, List.isPrefixOf_iff_prefix]
  exact List.prefix_append _ _

lemma not_mem_of_underDir {w : World} {tmpdir p : String}
    (Hfresh : ∀ q ∈ w.fs, underDir tmpdir q = false)
    (hp : underDir tmpdir p = true) : p ∉ w.fs :=
  fun hmem => by simp [Hfresh p hmem] at hp


lemma requestedOutput_cmd (l₁ : List String) (dest : String) (h : dest ≠ "-o") :
    requestedOutput (l₁ ++ ["-o", dest]) = some dest :=
  requestedOutput_append_some l₁ (requestedOutput_o_tail h (List.not_mem_nil _))

lemma requestedOutput_infoArgsV (cfg : Config) :
    requestedOutput (infoArgsV cfg) = none := by
  rw [infoArgsV, requestedOutput_cons_ne _ _ (pathJoin_ne_o _ _ (by decide)),
    requestedOutput_single]

lemma requestedOutput_stubCmdV (cfg : Config) (tc : Toolchain) (dir : String)
    (n : Nat) :
    requestedOutput (stubCmdV cfg tc dir n) =
      some (pathJoin dir "stub.sycl") := by
  have he : stubCmdV cfg tc dir n =
      (pathJoin (pathJoin cfg.installDir "bin") "compute++" ::
        (get_host_cflags cfg ++
         pySplit (tc n (infoArgsV cfg) none).stdout ++ ["-c", "-"])) ++
      ["-o", pathJoin dir "stub.sycl"] := by
    simp [stubCmdV]
  rw [he]
  exact requestedOutput_cmd _ _ (pathJoin_ne_o _ _ (by decide))

lemma requestedOutput_hostCmdV (cfg : Config) (stub dir : String) :
    requestedOutput (hostCmdV cfg stub dir) = some (pathJoin dir "host.o") := by
  have he : hostCmdV cfg stub dir =
      (pathJoin (pathJoin cfg.installDir "bin") "compute++" ::
        (get_host_cflags cfg ++ ["-c", "-", "-fPIC", "-include", stub])) ++
      ["-o", pathJoin dir "host.o"] := by
    simp [hostCmdV]
  rw [he]
  exact requestedOutput_cmd _ _ (pathJoin_ne_o _ _ (by decide))

lemma requestedOutput_linkCmdV (cfg : Config) (host dir : String)
    (hld : "-o" ∉ get_ldflags cfg) :
    requestedOutput (linkCmdV cfg host dir) =
      some (pathJoin dir "visioncpp_native") := by
  have he : linkCmdV cfg host dir =
      [pathJoin (pathJoin cfg.installDir "bin") "compute++",
       "-std=c++11", "-shared", "-Wl,-soname,visioncpp_native.so",
       "-Wl,-rpath=" ++ pathJoin cfg.installDir "lib", host] ++
      ("-o" :: pathJoin dir "visioncpp_native" :: get_ldflags cfg) := by
    simp [linkCmdV]
  rw [he]
  exact requestedOutput_append_some _
    (requestedOutput_o_tail (pathJoin_ne_o _ _ (by decide)) hld)

lemma requestedOutput_info (cfg : Config) :
    requestedOutput
      [pathJoin (pathJoin cfg.installDir "bin") "computecpp_info",
       "--dump-device-compiler-flags"] = none := by
  rw [requestedOutput_cons_ne _ _ (pathJoin_ne_o _ _ (by decide)),
    requestedOutput_single]

lemma requestedOutput_cmd2 (a : String) (l₁ l₂ : List String) (dest : String)
    (h : dest ≠ "-o") :
    requestedOutput (a :: (l₁ ++ (l₂ ++ ["-c", "-", "-o", dest]))) =
      some dest := by
  have he : a :: (l₁ ++ (l₂ ++ ["-c", "-", "-o", dest])) =
      (a :: (l₁ ++ l₂ ++ ["-c", "-"])) ++ ["-o", dest] := by simp
  rw [he]
  exact requestedOutput_cmd _ _ h

lemma requestedOutput_stubRaw (a : String) (l₁ l₂ : List String)
    (dir : String) :
    requestedOutput
      (a :: (l₁ ++ (l₂ ++ ["-c", "-", "-o", pathJoin dir "stub.sycl"]))) =
      some (pathJoin dir "stub.sycl") :=
  requestedOutput_cmd2 a l₁ l₂ _ (pathJoin_ne_o _ _ (by decide))

lemma requestedOutput_hostRaw (a : String) (l₁ : List String)
    (stub dir : String) :
    requestedOutput
      (a :: (l₁ ++ ["-c", "-", "-fPIC", "-include", stub, "-o",
        pathJoin dir "host.o"])) = some (pathJoin dir "host.o") := by
  have he : a :: (l₁ ++ ["-c", "-", "-fPIC", "-include", stub, "-o",
      pathJoin dir "host.o"]) =
      (a :: (l₁ ++ ["-c", "-", "-fPIC", "-include", stub])) ++
        ["-o", pathJoin dir "host.o"] := by simp
  rw [he]
  exact requestedOutput_cmd _ _ (pathJoin_ne_o _ _ (by decide))

lemma requestedOutput_linkRaw (a so rp host dir : String) (ld : List String)
    (hld : "-o" ∉ ld) :
    requestedOutput
      (a :: "-std=c++11" :: "-shared" :: so :: rp :: host :: "-o" ::
        pathJoin dir "visioncpp_native" :: ld) =
      some (pathJoin dir "visioncpp_native") := by
  have he : a :: "-std=c++11" :: "-shared" :: so :: rp :: host :: "-o" ::
      pathJoin dir "visioncpp_native" :: ld =
      [a, "-std=c++11", "-shared", so, rp, host] ++
        ("-o" :: pathJoin dir "visioncpp_native" :: ld) := by simp
  rw [he]
  exact requestedOutput_append_some _
    (requestedOutput_o_tail (pathJoin_ne_o _ _ (by decide)) hld)

lemma stub_file_eval (cfg : Config) (tc : Toolchain) (code dir : String)
    (w : World)
    (Hrc : ∀ n args s, (tc n args s).returncode = 0)
    (Hcr : ∀ n args s, (tc n args s).created = (requestedOutput args).toList)
    (hd : pathJoin dir "stub.sycl" ∉ w.fs) :
    stub_file cfg tc code dir w =
      ({ w with
          fs := w.fs ++ [pathJoin dir "stub.sycl"]
          infoLog := w.infoLog ++
            [String.intercalate " " (stubCmdV cfg tc dir w.spawnCount)]
          spawnCount := w.spawnCount + 2
          calls := w.calls ++
            [⟨infoArgsV cfg, none⟩,
             ⟨stubCmdV cfg tc dir w.spawnCount, some code⟩]
          ccCalls := w.ccCalls ++
            [⟨stubCmdV cfg tc dir w.spawnCount, some code⟩] },
       .ok (pathJoin dir "stub.sycl")) := by
  simp [stub_file, get_device_cflags, invoke_computecpp, spawn, hd, Hrc, Hcr,
    requestedOutput_info, requestedOutput_stubRaw,
    stubCmdV, infoArgsV, List.append_assoc]

lemma host_compile_eval (cfg : Config) (tc : Toolchain)
    (code stub dir : String) (w : World)
    (Hrc : ∀ n args s, (tc n args s).returncode = 0)
    (Hcr : ∀ n args s, (tc n args s).created = (requestedOutput args).toList)
    (hd : pathJoin dir "host.o" ∉ w.fs) :
    host_compile cfg tc code stub dir w =
      ({ w with
          fs := w.fs ++ [pathJoin dir "host.o"]
          infoLog := w.infoLog ++
            [String.intercalate " " (hostCmdV cfg stub dir)]
          spawnCount := w.spawnCount + 1
          calls := w.calls ++ [⟨hostCmdV cfg stub dir, some code⟩]
          ccCalls := w.ccCalls ++ [⟨hostCmdV cfg stub dir, some code⟩] },
       .ok (pathJoin dir "host.o")) := by
  simp [host_compile, invoke_computecpp, spawn, hd, Hrc, Hcr,
    requestedOutput_hostRaw, hostCmdV, List.append_assoc]

lemma link_eval (cfg : Config) (tc : Toolchain) (host dir : String)
    (w : World)
    (Hrc : ∀ n args s, (tc n args s).returncode = 0)
    (Hcr : ∀ n args s, (tc n args s).created = (requestedOutput args).toList)
    (Hld : "-o" ∉ get_ldflags cfg)
    (hd : pathJoin dir "visioncpp_native" ∉ w.fs) :
    link cfg tc host dir w =
      ({ w with
          fs := w.fs ++ [pathJoin dir "visioncpp_native"]
          infoLog := w.infoLog ++
            [String.intercalate " " (linkCmdV cfg host dir)]
          spawnCount := w.spawnCount + 1
          calls := w.calls ++ [⟨linkCmdV cfg host dir, none⟩]
          ccCalls := w.ccCalls ++ [⟨linkCmdV cfg host dir, none⟩] },
       .ok (pathJoin dir "visioncpp_native")) := by
  simp [link, invoke_computecpp, spawn, hd, Hrc, Hcr,
    requestedOutput_linkRaw, Hld, linkCmdV, List.append_assoc]


lemma truthy_cache_get_false {w : World} {k : String}
    (h : keypath k ∉ w.fs) : truthyOpt (cache_get w k) = false := by
  simp [cache_get, h, truthyOpt]

lemma check_for_computecpp_ok (cfg : Config) (w : World)
    (h1 : pathJoin (pathJoin cfg.installDir "bin") "computecpp_info" ∈ w.fs)
    (h2 : pathJoin (pathJoin cfg.installDir "bin") "compute++" ∈ w.fs)
    (h3 : pathJoin (pathJoin cfg.installDir "lib") "libComputeCpp.so" ∈ w.fs) :
    check_for_computecpp cfg w = .ok () := by
  simp [check_for_computecpp, h1, h2, h3]

lemma compile_miss_eval (cfg : Config) (tc : Toolchain)
    (tmpdir code0 : String) (w : World)
    (Hrc : ∀ n args s, (tc n args s).returncode = 0)
    (Hcr : ∀ n args s, (tc n args s).created = (requestedOutput args).toList)
    (Hld : "-o" ∉ get_ldflags cfg)
    (Hfresh : ∀ q ∈ w.fs, underDir tmpdir q = false)
    (Hmiss : keypath (preamble ++ code0) ∉ w.fs)
    (Hkp : underDir tmpdir (keypath (preamble ++ code0)) = false)
    (Hp1 : pathJoin (pathJoin cfg.installDir "bin") "computecpp_info" ∈ w.fs)
    (Hp2 : pathJoin (pathJoin cfg.installDir "bin") "compute++" ∈ w.fs)
    (Hp3 : pathJoin (pathJoin cfg.installDir "lib") "libComputeCpp.so" ∈ w.fs) :
    (compile_cpp_code cfg tc tmpdir code0 w).2 =
      .ok (keypath (preamble ++ code0))
    ∧ (compile_cpp_code cfg tc tmpdir code0 w).1.fs =
      w.fs ++ [keypath (preamble ++ code0)]
    ∧ (compile_cpp_code cfg tc tmpdir code0 w).1.spawnCount = w.spawnCount + 4
    ∧ (compile_cpp_code cfg tc tmpdir code0 w).1.ccCalls =
      w.ccCalls ++
        [⟨stubCmdV cfg tc tmpdir w.spawnCount, some (preamble ++ code0)⟩,
         ⟨hostCmdV cfg (pathJoin tmpdir "stub.sycl") tmpdir,
          some (preamble ++ code0)⟩,
         ⟨linkCmdV cfg (pathJoin tmpdir "host.o") tmpdir, none⟩]
    ∧ (compile_cpp_code cfg tc tmpdir code0 w).1.calls =
      w.calls ++
        [⟨infoArgsV cfg, none⟩,
         ⟨stubCmdV cfg tc tmpdir w.spawnCount, some (preamble ++ code0)⟩,
         ⟨hostCmdV cfg (pathJoin tmpdir "stub.sycl") tmpdir,
          some (preamble ++ code0)⟩,
         ⟨linkCmdV cfg (pathJoin tmpdir "host.o") tmpdir, none⟩]
    ∧ (compile_cpp_code cfg tc tmpdir code0 w).1.stderrLog = w.stderrLog := by
  have n1 : pathJoin tmpdir "stub.sycl" ∉ w.fs :=
    not_mem_of_underDir Hfresh (underDir_pathJoin _ _)
  have n2 : pathJoin tmpdir "host.o" ∉ w.fs :=
    not_mem_of_underDir Hfresh (underDir_pathJoin _ _)
  have n3 : pathJoin tmpdir "visioncpp_native" ∉ w.fs :=
    not_mem_of_underDir Hfresh (underDir_pathJoin _ _)
  have ntd : tmpdir ∉ w.fs := not_mem_of_underDir Hfresh (underDir_self _)
  have e1 : pathJoin tmpdir "stub.sycl" ≠ tmpdir := pathJoin_ne_dir _ _
  have e2 : pathJoin tmpdir "host.o" ≠ tmpdir := pathJoin_ne_dir _ _
  have e3 : pathJoin tmpdir "visioncpp_native" ≠ tmpdir := pathJoin_ne_dir _ _
  have d21 : pathJoin tmpdir "host.o" ≠ pathJoin tmpdir "stub.sycl" :=
    pathJoin_ne_of_length_ne _ (by decide)
  have d31 : pathJoin tmpdir "visioncpp_native" ≠ pathJoin tmpdir "stub.sycl" :=
    pathJoin_ne_of_length_ne _ (by decide)
  have d32 : pathJoin tmpdir "visioncpp_native" ≠ pathJoin tmpdir "host.o" :=
    pathJoin_ne_of_length_ne _ (by decide)
  have hfw : w.fs.filter (fun p => !(underDir tmpdir p)) = w.fs :=
    List.filter_eq_self.mpr (fun a ha => by simp [Hfresh a ha])
  have ht : truthyOpt (cache_get w (preamble ++ code0)) = false :=
    truthy_cache_get_false Hmiss
  have hck : check_for_computecpp cfg w = .ok () :=
    check_for_computecpp_ok cfg w Hp1 Hp2 Hp3
  refine ⟨?_, ?_, ?_, ?_, ?_, ?_⟩ <;>
  simp [compile_cpp_code, build_in_workspace, ht, hck, stub_file_eval,
    host_compile_eval, link_eval, Hrc, Hcr, Hld, cache_set, rmtree,
    cache_getitem, cache_get, truthyOpt,
    Hmiss, Hkp, hfw, n1, n2, n3, ntd, e1, e2, e3, d21, d31, d32,
    underDir_self, underDir_pathJoin, List.filter_append, List.append_assoc]


lemma keypath_ne_empty (k : String) : keypath k ≠ "" :=
  pathJoin_ne_empty _ _

lemma compile_hit_eval (cfg : Config) (tc : Toolchain)
    (tmpdir code0 : String) (w : World)
    (h : keypath (preamble ++ code0) ∈ w.fs) :
    compile_cpp_code cfg tc tmpdir code0 w =
      ({ w with infoLog := w.infoLog ++
          ["Found cached binary " ++
           pyBasename (keypath (preamble ++ code0))] },
       .ok (keypath (preamble ++ code0))) := by
  have hne : (keypath (preamble ++ code0) != "") = true := by
    simp [keypath_ne_empty]
  simp [compile_cpp_code, cache_get, h, truthyOpt, cache_getitem, hne]


lemma fs_not_mem_invoke {x : String} (cfg : Config) (tc : Toolchain)
    (args : List String) (s : Option String) (w : World)
    (hx : x ∉ w.fs) (hc : ∀ n a s2, x ∉ (tc n a s2).created) :
    x ∉ (invoke_computecpp cfg tc args s w).1.fs := by
  simp only [invoke_computecpp, spawn]
  split <;> simp [hx, hc]

lemma fs_not_mem_stub {x : String} (cfg : Config) (tc : Toolchain)
    (code dir : String) (w : World)
    (hx : x ∉ w.fs) (hc : ∀ n a s2, x ∉ (tc n a s2).created) :
    x ∉ (stub_file cfg tc code dir w).1.fs := by
  simp only [stub_file, get_device_cflags, invoke_computecpp, spawn]
  repeat' split
  all_goals simp_all [hc]

lemma fs_not_mem_host {x : String} (cfg : Config) (tc : Toolchain)
    (code stub dir : String) (w : World)
    (hx : x ∉ w.fs) (hc : ∀ n a s2, x ∉ (tc n a s2).created) :
    x ∉ (host_compile cfg tc code stub dir w).1.fs := by
  simp only [host_compile, invoke_computecpp, spawn]
  repeat' split
  all_goals simp_all [hc]

lemma fs_not_mem_link {x : String} (cfg : Config) (tc : Toolchain)
    (host dir : String) (w : World)
    (hx : x ∉ w.fs) (hc : ∀ n a s2, x ∉ (tc n a s2).created) :
    x ∉ (link cfg tc host dir w).1.fs := by
  simp only [link, invoke_computecpp, spawn]
  repeat' split
  all_goals simp_all [hc]

lemma fs_not_mem_build_error {x : String} (cfg : Config) (tc : Toolchain)
    (code tmpdir : String) (w : World) (e : Err)
    (hx : x ∉ w.fs) (hc : ∀ n a s2, x ∉ (tc n a s2).created)
    (h : (build_in_workspace cfg tc code tmpdir w).2 = .error e) :
    x ∉ (build_in_workspace cfg tc code tmpdir w).1.fs := by
  simp only [build_in_workspace] at h ⊢
  split at h
  · next heq =>
      exact fs_not_mem_stub cfg tc code tmpdir _ hx hc
  · next stub heq =>
      split at h
      · next heq2 =>
          exact fs_not_mem_host cfg tc code stub tmpdir _
            (fs_not_mem_stub cfg tc code tmpdir _ hx hc) hc
      · next host heq2 =>
          split at h
          · next heq3 =>
              exact fs_not_mem_link cfg tc host tmpdir _
                (fs_not_mem_host cfg tc code stub tmpdir _
                  (fs_not_mem_stub cfg tc code tmpdir _ hx hc) hc) hc
          · next tmpbin heq3 =>
              exact absurd h (by simp)


lemma cache_getitem_error {w : World} {k : String} {e : Err}
    (h : cache_getitem w k = .error e) : keypath k ∉ w.fs := by
  by_cases hm : keypath k ∈ w.fs
  · simp [cache_getitem, cache_get, hm] at h
  · exact hm

lemma compile_error_no_cache_entry (cfg : Config) (tc : Toolchain)
    (tmpdir code0 : String) (w : World) (e : Err)
    (Hmiss : keypath (preamble ++ code0) ∉ w.fs)
    (Hnt : keypath (preamble ++ code0) ≠ tmpdir)
    (hc : ∀ n a s2, keypath (preamble ++ code0) ∉ (tc n a s2).created)
    (h : (compile_cpp_code cfg tc tmpdir code0 w).2 = .error e) :
    keypath (preamble ++ code0) ∉
      (compile_cpp_code cfg tc tmpdir code0 w).1.fs := by
  have hT : truthyOpt (cache_get w (preamble ++ code0)) = false :=
    truthy_cache_get_false Hmiss
  simp only [compile_cpp_code, hT, Bool.false_eq_true, if_false] at h ⊢
  cases hchk : check_for_computecpp cfg w with
  | error e2 =>
      simp only [hchk] at h ⊢
      exact Hmiss
  | ok u =>
      simp only [hchk] at h ⊢
      have hx1 : keypath (preamble ++ code0) ∉ w.fs ++ [tmpdir] := by
        simp [Hmiss, Hnt]
      split at h
      · next e2 heq =>
          have hb := fs_not_mem_build_error cfg tc (preamble ++ code0) tmpdir
            _ e2 hx1 hc heq
          simp only [handleBuildFailure, rmtree]
          split <;> simp_all [List.mem_filter]
      · next v heq =>
          have h2 : cache_getitem
              (rmtree tmpdir (build_in_workspace cfg tc (preamble ++ code0)
                tmpdir { w with fs := w.fs ++ [tmpdir] }).1)
              (preamble ++ code0) = .error e := h
          exact cache_getitem_error h2


/-- C7: the cache key `compile_cpp_code` uses for a submitted source text `X`
is the fingerprint of the fixed preamble concatenated with `X`; it differs
from the fingerprint of `X` alone, and no normalization is applied, so `"A"`
and `"A "` get distinct cache keys (and distinct cache entry locations). -/
theorem c7_preamble_cache_key (X : String) :
    cache_key X = fingerprint (preamble ++ X)
    ∧ cache_key X ≠ fingerprint X
    ∧ cache_key "A" ≠ cache_key "A "
    ∧ keypath (cache_key "A") ≠ keypath (cache_key "A ") := by
  refine ⟨rfl, ?_, by decide, by decide⟩
  apply str_ne_of_length_ne
  have h : (cache_key X).length = preamble.length + X.length :=
    String.length_append _ _
  have hp : preamble.length = 120 := by decide
  have hf : (fingerprint X).length = X.length := rfl
  omega

/-- C10: `get_device_cflags` returns the whitespace-split tokens of the
captured stdout of the `computecpp_info --dump-device-compiler-flags`
process, never inspecting its exit status: two toolchains agreeing on that
stdout yield the same flags whatever their exit codes; empty stdout yields
the empty list; and the function raises nothing (it returns a plain flag
list for every toolchain outcome), while still counting as a spawn. -/
theorem c10_device_cflags_tolerance (cfg : Config) (tc tc2 : Toolchain)
    (w : World) :
    (get_device_cflags cfg tc w).2 =
      pySplit (tc w.spawnCount (infoArgsV cfg) none).stdout
    ∧ ((tc2 w.spawnCount (infoArgsV cfg) none).stdout =
         (tc w.spawnCount (infoArgsV cfg) none).stdout →
       (get_device_cflags cfg tc2 w).2 = (get_device_cflags cfg tc w).2)
    ∧ ((tc w.spawnCount (infoArgsV cfg) none).stdout = "" →
       (get_device_cflags cfg tc w).2 = [])
    ∧ (get_device_cflags cfg tc w).1.spawnCount = w.spawnCount + 1 := by
  refine ⟨rfl, ?_, ?_, rfl⟩
  · intro h
    simp only [get_device_cflags, spawn]
    rw [show infoArgsV cfg =
      [pathJoin (pathJoin cfg.installDir "bin") "computecpp_info",
       "--dump-device-compiler-flags"] from rfl] at h
    rw [h]
  · intro h
    simp only [get_device_cflags, spawn]
    rw [show infoArgsV cfg =
      [pathJoin (pathJoin cfg.installDir "bin") "computecpp_info",
       "--dump-device-compiler-flags"] from rfl] at h
    rw [h]
    rfl

/-- Witness for C10 at a concrete input: with the always-succeeding fake
toolchain (empty stdout) the discovered device flags are `[]`, and exactly
one process was spawned. -/
theorem c10_witness :
    (get_device_cflags cfg0 tcOK w0).2 = []
    ∧ (get_device_cflags cfg0 tcOK w0).1.spawnCount = 1 := by
  have h := c10_device_cflags_tolerance cfg0 tcOK tcOK w0
  exact ⟨h.2.2.1 rfl, by simpa using h.2.2.2⟩

/-- C8: `run` fails with `TypeError` when some pipeline stage is not an
`Operation` instance or when `binary` is not a string, and with `ValueError`
when `binary` is empty or names a nonexistent path; in every such case it
returns with the world unchanged — nothing is displayed, loaded, or
invoked. -/
theorem c8_run_argument_validation (loadable : String → Bool)
    (pipeline : List Stage) (b : PyArg) (w : World) :
    (¬ pipeline.all Stage.isOperation →
       run loadable pipeline b w = (w, .error .typeError))
    ∧ (pipeline.all Stage.isOperation → b = .notStr →
       run loadable pipeline b w = (w, .error .typeError))
    ∧ (∀ s, pipeline.all Stage.isOperation → b = .str s →
       (s = "" ∨ s ∉ w.fs) →
       run loadable pipeline b w = (w, .error .valueError)) := by
  refine ⟨?_, ?_, ?_⟩
  · intro h
    simp [run, h]
  · intro h hb
    subst hb
    simp [run, h]
  · intro s h hb hv
    subst hb
    simp [run, h, hv]

/-- Witness for C8 at concrete inputs: a pipeline containing a non-Operation
value is rejected with `TypeError` and no side effect. -/
theorem c8_witness :
    run (fun _ => true) [Stage.other] (PyArg.str "bin") w0 =
      (w0, .error .typeError) :=
  (c8_run_argument_validation (fun _ => true) [Stage.other]
    (PyArg.str "bin") w0).1 (by decide)

/-- C3 (code bug): with the three toolchain files present and an empty
cache, a toolchain invocation that exits non-zero makes `compile_cpp_code`
end in `sys.exit` (`SystemExit`), which the `except Exception` cleanup
handler does not catch — the scratch directory is still on disk afterwards.
By contrast a stage failing with an ordinary `Exception` (here: the
toolchain exits 0 but creates no output, so the post-assert fails) is
caught, and the scratch directory is removed. -/
theorem c3_workspace_left_behind :
    (compile_cpp_code cfg0 tcFail tmp0 "int x = 1;" w0).2 =
      .error (.sysExit 1)
    ∧ tmp0 ∈ (compile_cpp_code cfg0 tcFail tmp0 "int x = 1;" w0).1.fs
    ∧ (compile_cpp_code cfg0 tcEmpty tmp0 "int x = 1;" w0).2 =
      .error .assertionError
    ∧ tmp0 ∉ (compile_cpp_code cfg0 tcEmpty tmp0 "int x = 1;" w0).1.fs := by
  refine ⟨rfl, by decide, rfl, by decide⟩


/-- C6 (amended): when the spawned `compute++` process exits non-zero,
`invoke_computecpp` dumps the supplied input (if any), the captured stdout
and the captured stderr to the diagnostic stream together with the fatal
banner, and ends in `sys.exit` with the compiler's own exit code — it never
returns normally after a non-zero exit. On a zero exit it returns normally
with nothing written to the diagnostic stream. The invoked command line is
not part of the failure dump: it is logged (unconditionally, before the
spawn) to the informational logging stream. -/
theorem c6_toolchain_failure_reporting (cfg : Config) (tc : Toolchain)
    (args : List String) (s : Option String) (w : World) (r : ToolResult)
    (hr : tc w.spawnCount
      (pathJoin (pathJoin cfg.installDir "bin") "compute++" :: args) s = r) :
    (r.returncode ≠ 0 →
      (invoke_computecpp cfg tc args s w).2 = .error (.sysExit r.returncode)
      ∧ r.stdout ∈ (invoke_computecpp cfg tc args s w).1.stderrLog
      ∧ r.stderr ∈ (invoke_computecpp cfg tc args s w).1.stderrLog
      ∧ (∀ inp, s = some inp →
          inp ∈ (invoke_computecpp cfg tc args s w).1.stderrLog)
      ∧ "FATAL ERROR. TERMINATING." ∈
          (invoke_computecpp cfg tc args s w).1.stderrLog)
    ∧ (r.returncode = 0 →
      (invoke_computecpp cfg tc args s w).2 = .ok ()
      ∧ (invoke_computecpp cfg tc args s w).1.stderrLog = w.stderrLog)
    ∧ String.intercalate " "
        (pathJoin (pathJoin cfg.installDir "bin") "compute++" :: args) ∈
        (invoke_computecpp cfg tc args s w).1.infoLog := by
  refine ⟨?_, ?_, ?_⟩
  · intro h0
    refine ⟨?_, ?_, ?_, ?_, ?_⟩ <;>
      (cases s <;> simp [invoke_computecpp, spawn, hr, h0])
  · intro h0
    constructor <;> simp [invoke_computecpp, spawn, hr, h0]
  · by_cases h0 : r.returncode = 0 <;>
      (cases s <;> simp [invoke_computecpp, spawn, hr, h0])

/-- Counterexample to C6 as stated: at a concrete failing invocation the
command line is not among the lines dumped to the diagnostic stream (it
goes to the informational log instead), even though the invocation exits
non-zero and the dump of input, stdout and stderr does happen. -/
theorem c6_counterexample :
    (invoke_computecpp cfg0 tcFail ["-c"] none w0).2 =
      .error (.sysExit 1)
    ∧ "/ccp/bin/compute++ -c" ∉
        (invoke_computecpp cfg0 tcFail ["-c"] none w0).1.stderrLog
    ∧ "/ccp/bin/compute++ -c" ∈
        (invoke_computecpp cfg0 tcFail ["-c"] none w0).1.infoLog := by
  refine ⟨rfl, by decide, by decide⟩

/-- Witness for C6 at a concrete input: a failing invocation with supplied
input dumps input, stdout and stderr to the diagnostic stream and exits
with the compiler's exit code. -/
theorem c6_witness :
    (invoke_computecpp cfg0 tcFail ["-c"] (some "src") w0).2 =
      .error (.sysExit 1)
    ∧ "out" ∈ (invoke_computecpp cfg0 tcFail ["-c"] (some "src") w0).1.stderrLog
    ∧ "err" ∈ (invoke_computecpp cfg0 tcFail ["-c"] (some "src") w0).1.stderrLog
    ∧ "src" ∈ (invoke_computecpp cfg0 tcFail ["-c"] (some "src") w0).1.stderrLog := by
  have h := (c6_toolchain_failure_reporting cfg0 tcFail ["-c"] (some "src")
    w0 ⟨1, "out", "err", []⟩ rfl).1 (by decide)
  exact ⟨h.1, h.2.1, h.2.2.1, h.2.2.2.1 "src" rfl⟩

/-- C5: on a cache miss, if any of the three required toolchain files is
missing under the configured prefix, `compile_cpp_code` fails with a
`VisionCppException` naming a missing path, with the world unchanged — in
particular no process has been spawned and no workspace created. -/
theorem c5_missing_toolchain_fail_fast (cfg : Config) (tc : Toolchain)
    (tmpdir code0 : String) (w : World)
    (Hmiss : keypath (preamble ++ code0) ∉ w.fs)
    (hmissing :
      pathJoin (pathJoin cfg.installDir "bin") "computecpp_info" ∉ w.fs
      ∨ pathJoin (pathJoin cfg.installDir "bin") "compute++" ∉ w.fs
      ∨ pathJoin (pathJoin cfg.installDir "lib") "libComputeCpp.so" ∉ w.fs) :
    ∃ p,
      (p = pathJoin (pathJoin cfg.installDir "bin") "computecpp_info"
       ∨ p = pathJoin (pathJoin cfg.installDir "bin") "compute++"
       ∨ p = pathJoin (pathJoin cfg.installDir "lib") "libComputeCpp.so")
      ∧ p ∉ w.fs
      ∧ compile_cpp_code cfg tc tmpdir code0 w =
          (w, .error (.visionCppException (missingMsg p)))
      ∧ (compile_cpp_code cfg tc tmpdir code0 w).1.spawnCount = w.spawnCount
      ∧ (compile_cpp_code cfg tc tmpdir code0 w).1.calls = w.calls := by
  have hT := truthy_cache_get_false Hmiss
  by_cases h1 : pathJoin (pathJoin cfg.installDir "bin") "computecpp_info" ∈ w.fs
  · by_cases h2 : pathJoin (pathJoin cfg.installDir "bin") "compute++" ∈ w.fs
    · have h3 : pathJoin (pathJoin cfg.installDir "lib") "libComputeCpp.so"
          ∉ w.fs := by tauto
      have he : compile_cpp_code cfg tc tmpdir code0 w =
          (w, .error (.visionCppException (missingMsg
            (pathJoin (pathJoin cfg.installDir "lib") "libComputeCpp.so")))) := by
        simp [compile_cpp_code, hT, check_for_computecpp, h1, h2, h3]
      exact ⟨_, Or.inr (Or.inr rfl), h3, he, by rw [he], by rw [he]⟩
    · have he : compile_cpp_code cfg tc tmpdir code0 w =
          (w, .error (.visionCppException (missingMsg
            (pathJoin (pathJoin cfg.installDir "bin") "compute++")))) := by
        simp [compile_cpp_code, hT, check_for_computecpp, h1, h2]
      exact ⟨_, Or.inr (Or.inl rfl), h2, he, by rw [he], by rw [he]⟩
  · have he : compile_cpp_code cfg tc tmpdir code0 w =
        (w, .error (.visionCppException (missingMsg
          (pathJoin (pathJoin cfg.installDir "bin") "computecpp_info")))) := by
      simp [compile_cpp_code, hT, check_for_computecpp, h1]
    exact ⟨_, Or.inl rfl, h1, he, by rw [he], by rw [he]⟩

/-- Witness for C5 at a concrete input: with `compute++` absent, the build
fails with the configuration error naming a missing path and spawns
nothing. -/
theorem c5_witness :
    ∃ p,
      (p = pathJoin (pathJoin cfg0.installDir "bin") "computecpp_info"
       ∨ p = pathJoin (pathJoin cfg0.installDir "bin") "compute++"
       ∨ p = pathJoin (pathJoin cfg0.installDir "lib") "libComputeCpp.so")
      ∧ p ∉ (World.mk ["/ccp/bin/computecpp_info", "/ccp/lib/libComputeCpp.so"]
          [] [] [] 0 [] [] [] [] []).fs
      ∧ compile_cpp_code cfg0 tcOK tmp0 "int x = 1;"
          (World.mk ["/ccp/bin/computecpp_info", "/ccp/lib/libComputeCpp.so"]
            [] [] [] 0 [] [] [] [] []) =
          (World.mk ["/ccp/bin/computecpp_info", "/ccp/lib/libComputeCpp.so"]
            [] [] [] 0 [] [] [] [] [],
           .error (.visionCppException (missingMsg p)))
      ∧ (compile_cpp_code cfg0 tcOK tmp0 "int x = 1;"
          (World.mk ["/ccp/bin/computecpp_info", "/ccp/lib/libComputeCpp.so"]
            [] [] [] 0 [] [] [] [] [])).1.spawnCount = 0
      ∧ (compile_cpp_code cfg0 tcOK tmp0 "int x = 1;"
          (World.mk ["/ccp/bin/computecpp_info", "/ccp/lib/libComputeCpp.so"]
            [] [] [] 0 [] [] [] [] [])).1.calls = [] :=
  c5_missing_toolchain_fail_fast cfg0 tcOK tmp0 "int x = 1;" _
    (by decide) (by decide)

/-- C4: on a cache miss, if the build fails at any stage (whatever
exception or exit ends it), no cache entry is recorded for the submitted
text's fingerprint: the cache lookup still misses afterwards. The entry is
appended only after the three stages have all succeeded. -/
theorem c4_atomic_cache_write (cfg : Config) (tc : Toolchain)
    (tmpdir code0 : String) (w : World) (e : Err)
    (Hmiss : keypath (preamble ++ code0) ∉ w.fs)
    (Hnt : keypath (preamble ++ code0) ≠ tmpdir)
    (hc : ∀ n a s2, keypath (preamble ++ code0) ∉ (tc n a s2).created)
    (h : (compile_cpp_code cfg tc tmpdir code0 w).2 = .error e) :
    cache_get (compile_cpp_code cfg tc tmpdir code0 w).1
      (preamble ++ code0) = none := by
  have hm := compile_error_no_cache_entry cfg tc tmpdir code0 w e
    Hmiss Hnt hc h
  simp [cache_get, hm]

/-- Witness for C4 at a concrete input: after a failing build of
`"int x = 1;"` from the empty cache, the cache still has no entry for it. -/
theorem c4_witness :
    cache_get (compile_cpp_code cfg0 tcFail tmp0 "int x = 1;" w0).1
      (preamble ++ "int x = 1;") = none :=
  c4_atomic_cache_write cfg0 tcFail tmp0 "int x = 1;" w0 (.sysExit 1)
    (by decide) (by decide)
    (fun n a s2 => by simp [tcFail])
    rfl


/-- C2 (amended): for a source text whose (preamble-prefixed) fingerprint is
not in the cache, with the toolchain files present and a toolchain that
succeeds and creates exactly the requested output files, `compile_cpp_code`
invokes `compute++` exactly three times, in the order device-stub compile
(source on stdin), host compile (source on stdin), link (no stdin), with
requested output paths `tmpdir/stub.sycl`, `tmpdir/host.o`,
`tmpdir/visioncpp_native`; it then leaves the filesystem extended by exactly
one new entry — the cache entry for the preamble-prefixed source — and
returns that cache entry's path, which differs from the link-stage output
path (the workspace, including the link output, has been deleted). -/
theorem c2_end_to_end_build (cfg : Config) (tc : Toolchain)
    (tmpdir code0 : String) (w : World)
    (Hrc : ∀ n args s, (tc n args s).returncode = 0)
    (Hcr : ∀ n args s, (tc n args s).created = (requestedOutput args).toList)
    (Hld : "-o" ∉ get_ldflags cfg)
    (Hfresh : ∀ q ∈ w.fs, underDir tmpdir q = false)
    (Hmiss : keypath (preamble ++ code0) ∉ w.fs)
    (Hkp : underDir tmpdir (keypath (preamble ++ code0)) = false)
    (Hp1 : pathJoin (pathJoin cfg.installDir "bin") "computecpp_info" ∈ w.fs)
    (Hp2 : pathJoin (pathJoin cfg.installDir "bin") "compute++" ∈ w.fs)
    (Hp3 : pathJoin (pathJoin cfg.installDir "lib") "libComputeCpp.so" ∈ w.fs) :
    ∃ a₁ a₂ a₃,
      (compile_cpp_code cfg tc tmpdir code0 w).1.ccCalls =
        w.ccCalls ++
          [⟨a₁, some (preamble ++ code0)⟩,
           ⟨a₂, some (preamble ++ code0)⟩,
           ⟨a₃, none⟩]
      ∧ requestedOutput a₁ = some (pathJoin tmpdir "stub.sycl")
      ∧ requestedOutput a₂ = some (pathJoin tmpdir "host.o")
      ∧ requestedOutput a₃ = some (pathJoin tmpdir "visioncpp_native")
      ∧ (compile_cpp_code cfg tc tmpdir code0 w).1.fs =
          w.fs ++ [keypath (preamble ++ code0)]
      ∧ (compile_cpp_code cfg tc tmpdir code0 w).2 =
          .ok (keypath (preamble ++ code0))
      ∧ keypath (preamble ++ code0) ≠ pathJoin tmpdir "visioncpp_native" := by
  obtain ⟨h1, h2, h3, h4, h5, h6⟩ :=
    compile_miss_eval cfg tc tmpdir code0 w Hrc Hcr Hld Hfresh Hmiss Hkp
      Hp1 Hp2 Hp3
  have hne : keypath (preamble ++ code0) ≠ pathJoin tmpdir "visioncpp_native" := by
    intro he
    have hu := underDir_pathJoin tmpdir "visioncpp_native"
    rw [← he, Hkp] at hu
    exact Bool.false_ne_true hu
  exact ⟨stubCmdV cfg tc tmpdir w.spawnCount,
    hostCmdV cfg (pathJoin tmpdir "stub.sycl") tmpdir,
    linkCmdV cfg (pathJoin tmpdir "host.o") tmpdir,
    h4,
    requestedOutput_stubCmdV cfg tc tmpdir w.spawnCount,
    requestedOutput_hostCmdV cfg (pathJoin tmpdir "stub.sycl") tmpdir,
    requestedOutput_linkCmdV cfg (pathJoin tmpdir "host.o") tmpdir Hld,
    h2, h1, hne⟩

set_option maxRecDepth 4000 in
/-- Counterexample to C2 as stated: at the concrete end-to-end input
(`"int x = 1;"`, empty cache, always-succeeding fake toolchain) the pipeline
does NOT return the link-stage output path `tmp0/visioncpp_native` — it
returns the cache entry's path, and the link-stage output no longer
exists. -/
theorem c2_counterexample :
    (compile_cpp_code cfg0 tcOK tmp0 "int x = 1;" w0).2 =
      .ok (keypath (preamble ++ "int x = 1;"))
    ∧ keypath (preamble ++ "int x = 1;") ≠ pathJoin tmp0 "visioncpp_native"
    ∧ pathJoin tmp0 "visioncpp_native" ∉
        (compile_cpp_code cfg0 tcOK tmp0 "int x = 1;" w0).1.fs := by
  refine ⟨rfl, by decide, by decide⟩

/-- Witness for C2 (amended) at the concrete end-to-end input. -/
theorem c2_witness :
    ∃ a₁ a₂ a₃,
      (compile_cpp_code cfg0 tcOK tmp0 "int x = 1;" w0).1.ccCalls =
        w0.ccCalls ++
          [⟨a₁, some (preamble ++ "int x = 1;")⟩,
           ⟨a₂, some (preamble ++ "int x = 1;")⟩,
           ⟨a₃, none⟩]
      ∧ requestedOutput a₁ = some (pathJoin tmp0 "stub.sycl")
      ∧ requestedOutput a₂ = some (pathJoin tmp0 "host.o")
      ∧ requestedOutput a₃ = some (pathJoin tmp0 "visioncpp_native")
      ∧ (compile_cpp_code cfg0 tcOK tmp0 "int x = 1;" w0).1.fs =
          w0.fs ++ [keypath (preamble ++ "int x = 1;")]
      ∧ (compile_cpp_code cfg0 tcOK tmp0 "int x = 1;" w0).2 =
          .ok (keypath (preamble ++ "int x = 1;"))
      ∧ keypath (preamble ++ "int x = 1;") ≠ pathJoin tmp0 "visioncpp_native" :=
  c2_end_to_end_build cfg0 tcOK tmp0 "int x = 1;" w0
    (fun _ _ _ => rfl) (fun _ _ _ => rfl) (by decide) (by decide)
    (by decide) (by decide) (by decide) (by decide) (by decide)

/-- C1 (amended): building the same exact source text twice runs the build
pipeline at most once. On a fresh successful build the first call performs
the three `compute++` invocations; the second call (with any toolchain and
any scratch name) spawns no process at all, records no invocation, and
returns the same artifact path as the first. -/
theorem c1_cache_idempotence (cfg : Config) (tc tc2 : Toolchain)
    (tmpdir tmpdir2 code0 : String) (w : World)
    (Hrc : ∀ n args s, (tc n args s).returncode = 0)
    (Hcr : ∀ n args s, (tc n args s).created = (requestedOutput args).toList)
    (Hld : "-o" ∉ get_ldflags cfg)
    (Hfresh : ∀ q ∈ w.fs, underDir tmpdir q = false)
    (Hmiss : keypath (preamble ++ code0) ∉ w.fs)
    (Hkp : underDir tmpdir (keypath (preamble ++ code0)) = false)
    (Hp1 : pathJoin (pathJoin cfg.installDir "bin") "computecpp_info" ∈ w.fs)
    (Hp2 : pathJoin (pathJoin cfg.installDir "bin") "compute++" ∈ w.fs)
    (Hp3 : pathJoin (pathJoin cfg.installDir "lib") "libComputeCpp.so" ∈ w.fs) :
    (compile_cpp_code cfg tc tmpdir code0 w).2 =
      .ok (keypath (preamble ++ code0))
    ∧ (compile_cpp_code cfg tc2 tmpdir2 code0
        (compile_cpp_code cfg tc tmpdir code0 w).1).2 =
      .ok (keypath (preamble ++ code0))
    ∧ (compile_cpp_code cfg tc2 tmpdir2 code0
        (compile_cpp_code cfg tc tmpdir code0 w).1).1.spawnCount =
      (compile_cpp_code cfg tc tmpdir code0 w).1.spawnCount
    ∧ (compile_cpp_code cfg tc2 tmpdir2 code0
        (compile_cpp_code cfg tc tmpdir code0 w).1).1.calls =
      (compile_cpp_code cfg tc tmpdir code0 w).1.calls
    ∧ (compile_cpp_code cfg tc2 tmpdir2 code0
        (compile_cpp_code cfg tc tmpdir code0 w).1).1.ccCalls =
      (compile_cpp_code cfg tc tmpdir code0 w).1.ccCalls
    ∧ (compile_cpp_code cfg tc tmpdir code0 w).1.ccCalls.length =
      w.ccCalls.length + 3 := by
  obtain ⟨h1, h2, h3, h4, h5, h6⟩ :=
    compile_miss_eval cfg tc tmpdir code0 w Hrc Hcr Hld Hfresh Hmiss Hkp
      Hp1 Hp2 Hp3
  have hmem : keypath (preamble ++ code0) ∈
      (compile_cpp_code cfg tc tmpdir code0 w).1.fs := by
    rw [h2]
    simp
  have hhit := compile_hit_eval cfg tc2 tmpdir2 code0
    (compile_cpp_code cfg tc tmpdir code0 w).1 hmem
  refine ⟨h1, ?_, ?_, ?_, ?_, ?_⟩
  · rw [hhit]
  · rw [hhit]
  · rw [hhit]
  · rw [hhit]
  · rw [h4]
    simp

set_option maxRecDepth 8000 in
/-- Counterexample to C1 as stated: at the concrete input, building the
same text twice invokes `invoke_computecpp` three times in total (all in
the first call) — not at most once. -/
theorem c1_counterexample :
    (compile_cpp_code cfg0 tcOK tmp0 "int x = 1;"
      (compile_cpp_code cfg0 tcOK tmp0 "int x = 1;" w0).1).1.ccCalls.length = 3
    ∧ ¬ ((compile_cpp_code cfg0 tcOK tmp0 "int x = 1;"
        (compile_cpp_code cfg0 tcOK tmp0 "int x = 1;" w0).1).1.ccCalls.length
        ≤ 1) := by
  refine ⟨by decide, by decide⟩

/-- Witness for C1 (amended) at the concrete input. -/
theorem c1_witness :
    (compile_cpp_code cfg0 tcOK tmp0 "int x = 1;" w0).2 =
      .ok (keypath (preamble ++ "int x = 1;"))
    ∧ (compile_cpp_code cfg0 tcOK tmp0 "int x = 1;"
        (compile_cpp_code cfg0 tcOK tmp0 "int x = 1;" w0).1).2 =
      .ok (keypath (preamble ++ "int x = 1;"))
    ∧ (compile_cpp_code cfg0 tcOK tmp0 "int x = 1;"
        (compile_cpp_code cfg0 tcOK tmp0 "int x = 1;" w0).1).1.spawnCount =
      (compile_cpp_code cfg0 tcOK tmp0 "int x = 1;" w0).1.spawnCount
    ∧ (compile_cpp_code cfg0 tcOK tmp0 "int x = 1;"
        (compile_cpp_code cfg0 tcOK tmp0 "int x = 1;" w0).1).1.calls =
      (compile_cpp_code cfg0 tcOK tmp0 "int x = 1;" w0).1.calls
    ∧ (compile_cpp_code cfg0 tcOK tmp0 "int x = 1;"
        (compile_cpp_code cfg0 tcOK tmp0 "int x = 1;" w0).1).1.ccCalls =
      (compile_cpp_code cfg0 tcOK tmp0 "int x = 1;" w0).1.ccCalls
    ∧ (compile_cpp_code cfg0 tcOK tmp0 "int x = 1;" w0).1.ccCalls.length =
      w0.ccCalls.length + 3 :=
  c1_cache_idempotence cfg0 tcOK tcOK tmp0 tmp0 "int x = 1;" w0
    (fun _ _ _ => rfl) (fun _ _ _ => rfl) (by decide) (by decide)
    (by decide) (by decide) (by decide) (by decide) (by decide)

/-- C9: each stage helper asserts its fixed-name destination: when the
destination already exists the function fails with `AssertionError` and the
world is untouched (no spawn); when the destination is absent and the
toolchain succeeds and creates each requested output, neither assertion
fails — the stage returns its destination path (`stub.sycl`, `host.o`,
`visioncpp_native` in the given directory), which now exists. -/
theorem c9_stage_output_assertions (cfg : Config) (tc : Toolchain)
    (code stub host dir : String) (w1 w2 w3 w4 w5 w6 : World)
    (Hrc : ∀ n args s, (tc n args s).returncode = 0)
    (Hcr : ∀ n args s, (tc n args s).created = (requestedOutput args).toList)
    (Hld : "-o" ∉ get_ldflags cfg)
    (h1 : pathJoin dir "stub.sycl" ∉ w1.fs)
    (h2 : pathJoin dir "host.o" ∉ w2.fs)
    (h3 : pathJoin dir "visioncpp_native" ∉ w3.fs)
    (h4 : pathJoin dir "stub.sycl" ∈ w4.fs)
    (h5 : pathJoin dir "host.o" ∈ w5.fs)
    (h6 : pathJoin dir "visioncpp_native" ∈ w6.fs) :
    (stub_file cfg tc code dir w1).2 = .ok (pathJoin dir "stub.sycl")
    ∧ pathJoin dir "stub.sycl" ∈ (stub_file cfg tc code dir w1).1.fs
    ∧ (host_compile cfg tc code stub dir w2).2 = .ok (pathJoin dir "host.o")
    ∧ pathJoin dir "host.o" ∈ (host_compile cfg tc code stub dir w2).1.fs
    ∧ (link cfg tc host dir w3).2 = .ok (pathJoin dir "visioncpp_native")
    ∧ pathJoin dir "visioncpp_native" ∈ (link cfg tc host dir w3).1.fs
    ∧ stub_file cfg tc code dir w4 = (w4, .error .assertionError)
    ∧ host_compile cfg tc code stub dir w5 = (w5, .error .assertionError)
    ∧ link cfg tc host dir w6 = (w6, .error .assertionError) := by
  have he1 := stub_file_eval cfg tc code dir w1 Hrc Hcr h1
  have he2 := host_compile_eval cfg tc code stub dir w2 Hrc Hcr h2
  have he3 := link_eval cfg tc host dir w3 Hrc Hcr Hld h3
  refine ⟨?_, ?_, ?_, ?_, ?_, ?_, ?_, ?_, ?_⟩
  · rw [he1]
  · rw [he1]
    simp
  · rw [he2]
  · rw [he2]
    simp
  · rw [he3]
  · rw [he3]
    simp
  · simp [stub_file, h4]
  · simp [host_compile, h5]
  · simp [link, h6]

/-- Witness for C9 at concrete inputs: fresh directory `/d` with the fake
succeeding toolchain for the success half, and a world already holding the
three outputs for the assertion half. -/
theorem c9_witness :
    (stub_file cfg0 tcOK "src" "/d" w0).2 = .ok (pathJoin "/d" "stub.sycl")
    ∧ link cfg0 tcOK "h" "/d" wD = (wD, .error .assertionError) := by
  have h := c9_stage_output_assertions cfg0 tcOK "src" "s" "h" "/d"
    w0 w0 w0 wD wD wD
    (fun _ _ _ => rfl) (fun _ _ _ => rfl) (by decide)
    (by decide) (by decide) (by decide) (by decide) (by decide) (by decide)
  exact ⟨h.1, h.2.2.2.2.2.2.2.2⟩

end VisionCpp
